/-
Verification of the Bangladesh trade simulation models against their
natural-language specification.

The Python sources are embedded shallowly over the rationals: every float
computation of the model code is rendered as exact rational arithmetic, and
every call to a random number generator is rendered as an explicit input
parameter (the drawn value).  Stateful updates become explicit state passing,
and computations that can raise a Python exception return Option.
-/
import Mathlib

namespace TradeSim

/-- Clamp a value to the interval [lo, hi]; this is the Python idiom
max(lo, min(hi, x)) used throughout the model code. -/
def clamp (lo hi x : ℚ) : ℚ := max lo (min hi x)

/-! ## Export sector model (models/export_sector.py)

ExportSectorModel.simulate_year reads the previous year's volume,
competitiveness and market share from its history dictionaries.  We embed one
step of simulate_year as a pure function of that previous state.  -/

/-- The slice of an ExportSectorModel's state that one simulate_year step
reads: static sector parameters together with the previous year's entries of
the history dictionaries (historical_volumes, historical_competitiveness,
historical_market_shares). -/
structure ExportSectorState where
  base_growth_rate : ℚ
  tariff_exposure : ℚ
  prev_volume : ℚ
  prev_competitiveness : ℚ
  prev_market_share : ℚ
deriving DecidableEq

/-- The exogenous arguments of ExportSectorModel.simulate_year.  The two
Python dictionaries (tariff_changes, competitor_growth) only enter through
their lists of values, so they are embedded as lists. -/
structure SectorInputs where
  global_demand_growth : ℚ
  tariff_changes : List ℚ
  exchange_rate_impact : ℚ
  logistics_performance : ℚ
  trade_policy_impact : ℚ
  compliance_impact : ℚ
  digital_adoption : ℚ
  competitor_growth : List ℚ
deriving DecidableEq

/-- Line 105: adjusted_growth = base_growth_rate * (1 + 0.5 * (global_demand_growth - 0.03)). -/
def adjusted_growth (s : ExportSectorState) (inp : SectorInputs) : ℚ :=
  s.base_growth_rate * (1 + (1/2) * (inp.global_demand_growth - 3/100))

/-- Lines 108-111: the tariff impact is 0 for an empty tariff_changes dict and
otherwise -sum(tariff_changes.values()) / len(tariff_changes) * tariff_exposure. -/
def weighted_tariff_impact (s : ExportSectorState) (inp : SectorInputs) : ℚ :=
  if inp.tariff_changes.isEmpty then 0
  else -inp.tariff_changes.sum / (inp.tariff_changes.length : ℚ) * s.tariff_exposure

/-- Lines 114-120: the weighted sum of competitiveness drivers. -/
def competitiveness_change (inp : SectorInputs) : ℚ :=
  (2/10) * inp.exchange_rate_impact +
  (3/10) * (inp.logistics_performance - 6/10) +
  (2/10) * inp.trade_policy_impact +
  (1/10) * inp.digital_adoption +
  -(2/10) * inp.compliance_impact

/-- Line 123: new_competitiveness = max(0.1, min(1.0, prev + change * 0.1)). -/
def new_competitiveness (s : ExportSectorState) (inp : SectorInputs) : ℚ :=
  clamp (1/10) 1 (s.prev_competitiveness + competitiveness_change inp * (1/10))

/-- Lines 126-128: competitor_impact -= (growth - base_growth_rate) * 0.2 over
the competitor_growth values. -/
def competitor_impact (s : ExportSectorState) (inp : SectorInputs) : ℚ :=
  -(inp.competitor_growth.map (fun g => (g - s.base_growth_rate) * (2/10))).sum

/-- Lines 131-140: the total effective growth rate; the Gaussian draw of line
139 is the explicit argument noise. -/
def effective_growth_rate (s : ExportSectorState) (inp : SectorInputs) (noise : ℚ) : ℚ :=
  adjusted_growth s inp + weighted_tariff_impact s inp +
  (new_competitiveness s inp - s.prev_competitiveness) * 2 +
  competitor_impact s inp + noise

/-- Line 143: new_volume = prev_volume * (1 + effective_growth_rate). -/
def new_volume (s : ExportSectorState) (inp : SectorInputs) (noise : ℚ) : ℚ :=
  s.prev_volume * (1 + effective_growth_rate s inp noise)

/-- Lines 146-148: new market share, clamped to [0, 1]. -/
def new_market_share (s : ExportSectorState) (inp : SectorInputs) (noise : ℚ) : ℚ :=
  clamp 0 1 (s.prev_market_share *
    (1 + (2/10) * (effective_growth_rate s inp noise - inp.global_demand_growth)))

/-- Lines 150-153: the history entries stored under year_index, which the next
call reads back as the previous state.  The stored volume is new_volume: the
base class stores it before any subclass adjustment can run. -/
def step_state (s : ExportSectorState) (inp : SectorInputs) (noise : ℚ) : ExportSectorState :=
  { s with
    prev_volume := new_volume s inp noise
    prev_competitiveness := new_competitiveness s inp
    prev_market_share := new_market_share s inp noise }

/-- The inputs of claim C1: global_demand_growth = 0.03, empty tariff_changes
and competitor_growth, and competitiveness-neutral drivers. -/
def neutral_inputs : SectorInputs :=
  { global_demand_growth := 3/100
    tariff_changes := []
    exchange_rate_impact := 0
    logistics_performance := 6/10
    trade_policy_impact := 0
    compliance_impact := 0
    digital_adoption := 0
    competitor_growth := [] }

theorem clamp_eq_self {lo hi x : ℚ} (h1 : lo ≤ x) (h2 : x ≤ hi) : clamp lo hi x = x := by
  unfold clamp
  rw [min_eq_right h2, max_eq_right h1]

/-- C1: with global_demand_growth = 0.03, empty tariff and competitor
dictionaries, competitiveness-neutral drivers and the Gaussian noise fixed to
0, a sector whose previous competitiveness lies in [0.1, 1.0] gets effective
growth rate exactly base_growth_rate, so export_volume is the previous volume
times (1 + base_growth_rate). -/
theorem export_growth_neutral_is_base_rate (s : ExportSectorState)
    (h1 : 1/10 ≤ s.prev_competitiveness) (h2 : s.prev_competitiveness ≤ 1) :
    effective_growth_rate s neutral_inputs 0 = s.base_growth_rate ∧
    new_volume s neutral_inputs 0 = s.prev_volume * (1 + s.base_growth_rate) := by
  have hch : competitiveness_change neutral_inputs = 0 := by
    simp [competitiveness_change, neutral_inputs]
  have hcomp : new_competitiveness s neutral_inputs = s.prev_competitiveness := by
    rw [new_competitiveness, hch]
    simpa using clamp_eq_self h1 h2
  have hegr : effective_growth_rate s neutral_inputs 0 = s.base_growth_rate := by
    rw [effective_growth_rate, hcomp, adjusted_growth, weighted_tariff_impact,
      competitor_impact]
    simp [neutral_inputs]
  exact ⟨hegr, by rw [new_volume, hegr]⟩

/-- Witness for C1 at a concrete sector state. -/
theorem export_growth_neutral_is_base_rate_check :
    (1/10 : ℚ) ≤ 1/2 ∧ (1/2 : ℚ) ≤ 1 ∧
    (effective_growth_rate ⟨6/100, 1/2, 100, 1/2, 1/10⟩ neutral_inputs 0 = 6/100 ∧
      new_volume ⟨6/100, 1/2, 100, 1/2, 1/10⟩ neutral_inputs 0 = 100 * (1 + 6/100)) :=
  ⟨by norm_num, by norm_num,
    export_growth_neutral_is_base_rate ⟨6/100, 1/2, 100, 1/2, 1/10⟩
      (by norm_num) (by norm_num)⟩

/-- C8: new competitiveness equals the previous competitiveness plus 0.1 times
the weighted driver sum, clamped to [0.1, 1.0]; in particular the stored
competitiveness always lies in [0.1, 1.0], for all input values. -/
theorem new_competitiveness_formula_and_bounds (s : ExportSectorState) (inp : SectorInputs) :
    new_competitiveness s inp =
      clamp (1/10) 1 (s.prev_competitiveness +
        (1/10) * ((2/10) * inp.exchange_rate_impact +
          (3/10) * (inp.logistics_performance - 6/10) +
          (2/10) * inp.trade_policy_impact +
          (1/10) * inp.digital_adoption -
          (2/10) * inp.compliance_impact)) ∧
    1/10 ≤ new_competitiveness s inp ∧ new_competitiveness s inp ≤ 1 := by
  refine ⟨?_, ?_, ?_⟩
  · unfold new_competitiveness competitiveness_change
    ring_nf
  · exact le_max_left _ _
  · exact max_le (by norm_num) (min_le_left _ _)

/-! ## Specialized sector subclasses (models/export_sector.py, lines 228-398)

RMGSectorModel, EmergingSectorModel and TraditionalSectorModel each call
super().simulate_year (which stores new_volume in historical_volumes at
year_index, lines 150-153) and only afterwards multiply the returned
results['export_volume'] by a sector-specific factor (lines 247, 311, 388).
The history dictionaries are not touched by the adjustment, so we embed a
subclass step as the base step together with a multiplier applied to the
returned volume only. -/

/-- The value stored in historical_volumes[year_index] by any simulate_year
call, base class or subclass: always the unadjusted base-model volume. -/
def stored_volume (s : ExportSectorState) (inp : SectorInputs) (noise : ℚ) : ℚ :=
  new_volume s inp noise

/-- The export_volume returned by a subclass simulate_year whose sector
specific multiplicative factor is mult (for RMG, mult = 1 + compliance cost
impact; for emerging sectors, the reputation premium; for traditional
sectors, 1 + combined effect + certification premium). -/
def subclass_returned_volume (s : ExportSectorState) (inp : SectorInputs)
    (noise mult : ℚ) : ℚ :=
  new_volume s inp noise * mult

/-- Line 244: RMG compliance cost impact,
-(sum of the compliance_cost_structure values {0.5, 0.3, 0.4} / 3) * 0.1. -/
def rmg_compliance_cost_impact : ℚ := -((1/2 + 3/10 + 2/5) / 3) * (1/10)

/-- C9 counterexample: with the RMG multiplier 1 + rmg_compliance_cost_impact
= 0.96 ≠ 1 but a sector whose previous volume is 0 (the engine defaults a
missing current_volume config key to 0), the returned export_volume equals
the value recorded in history, refuting the claim that a multiplier different
from 1 always makes them differ. -/
theorem subclass_volume_adjustment_zero_volume :
    (1 + rmg_compliance_cost_impact ≠ 1) ∧
    subclass_returned_volume ⟨6/100, 1/2, 0, 1/2, 1/10⟩ neutral_inputs 0
        (1 + rmg_compliance_cost_impact) =
      stored_volume ⟨6/100, 1/2, 0, 1/2, 1/10⟩ neutral_inputs 0 := by
  constructor
  · rw [rmg_compliance_cost_impact]; norm_num
  · rw [subclass_returned_volume, stored_volume, new_volume]
    norm_num

/-- C9 (amended): a subclass simulate_year stores the base-model volume in
historical_volumes[year_index] before applying its multiplicative adjustment
to the returned export_volume; whenever the multiplier differs from 1 and the
base-model volume is nonzero, the returned volume differs from the recorded
one; and the next step's previous-volume lookup uses the unadjusted stored
value, so the post-hoc multiplier never compounds across years. -/
theorem subclass_stores_unadjusted_volume (s : ExportSectorState) (inp : SectorInputs)
    (noise mult : ℚ) (hm : mult ≠ 1) (hv : new_volume s inp noise ≠ 0) :
    stored_volume s inp noise = new_volume s inp noise ∧
    subclass_returned_volume s inp noise mult ≠ stored_volume s inp noise ∧
    (step_state s inp noise).prev_volume = new_volume s inp noise := by
  refine ⟨rfl, ?_, rfl⟩
  rw [subclass_returned_volume, stored_volume]
  intro h
  apply hm
  have h2 : new_volume s inp noise * mult = new_volume s inp noise * 1 := by
    rw [h, mul_one]
  exact mul_left_cancel₀ hv h2

/-- Witness for the amended C9 at a concrete sector state with the RMG
multiplier 0.96. -/
theorem subclass_stores_unadjusted_volume_check :
    ((1 + rmg_compliance_cost_impact : ℚ) ≠ 1) ∧
    (new_volume ⟨6/100, 1/2, 100, 1/2, 1/10⟩ neutral_inputs 0 ≠ 0) ∧
    (stored_volume ⟨6/100, 1/2, 100, 1/2, 1/10⟩ neutral_inputs 0 =
        new_volume ⟨6/100, 1/2, 100, 1/2, 1/10⟩ neutral_inputs 0 ∧
      subclass_returned_volume ⟨6/100, 1/2, 100, 1/2, 1/10⟩ neutral_inputs 0
          (1 + rmg_compliance_cost_impact) ≠
        stored_volume ⟨6/100, 1/2, 100, 1/2, 1/10⟩ neutral_inputs 0 ∧
      (step_state ⟨6/100, 1/2, 100, 1/2, 1/10⟩ neutral_inputs 0).prev_volume =
        new_volume ⟨6/100, 1/2, 100, 1/2, 1/10⟩ neutral_inputs 0) :=
  ⟨by rw [rmg_compliance_cost_impact]; norm_num,
    by norm_num [new_volume, effective_growth_rate, adjusted_growth, weighted_tariff_impact,
      competitor_impact, new_competitiveness, competitiveness_change, neutral_inputs,
      clamp, min_def, max_def],
    subclass_stores_unadjusted_volume ⟨6/100, 1/2, 100, 1/2, 1/10⟩ neutral_inputs 0
      (1 + rmg_compliance_cost_impact)
      (by rw [rmg_compliance_cost_impact]; norm_num)
      (by norm_num [new_volume, effective_growth_rate, adjusted_growth, weighted_tariff_impact,
        competitor_impact, new_competitiveness, competitiveness_change, neutral_inputs,
        clamp, min_def, max_def])⟩

/-! ## Structural transformation model (models/structural_transformation.py)

calculate_export_diversification (lines 223-261) extracts the per-sector
export values, sums them, and accumulates hhi += (value / total) ** 2 over
the sectors.  Python raises ZeroDivisionError at the first share when the
total is zero and at least one sector exists, so the embedding returns
Option, none on that error branch. -/

/-- The HHI accumulated by the loop of lines 244-247: the sum over sector
values of (value / total) squared. -/
def hhi_sum (vals : List ℚ) : ℚ :=
  (vals.map (fun v => (v / vals.sum) ^ 2)).sum

/-- StructuralTransformationModel.calculate_export_diversification on the
list of sector export values: none models the ZeroDivisionError raised when
the total is 0 and the sector dict is nonempty. -/
def calculate_export_diversification (vals : List ℚ) : Option ℚ :=
  if vals.sum = 0 ∧ vals ≠ [] then none
  else some (hhi_sum vals)

theorem sum_map_mul_const (l : List ℚ) (k : ℚ) :
    (l.map (fun v => v * k)).sum = l.sum * k := by
  induction l with
  | nil => simp
  | cons a t ih => simp [ih]; ring

/-- C2: the HHI computed by calculate_export_diversification is invariant
under uniform rescaling of all sector export values by a positive scalar k,
for nonnegative values with positive total. -/
theorem hhi_scale_invariant (vals : List ℚ) (k : ℚ)
    (hnn : ∀ v ∈ vals, 0 ≤ v) (hpos : 0 < vals.sum) (hk : 0 < k) :
    calculate_export_diversification (vals.map (fun v => v * k)) =
      calculate_export_diversification vals := by
  have hsum : (vals.map (fun v => v * k)).sum = vals.sum * k := sum_map_mul_const vals k
  have hsk : vals.sum * k ≠ 0 := by positivity
  have hs : vals.sum ≠ 0 := ne_of_gt hpos
  have hhi_eq : hhi_sum (vals.map (fun v => v * k)) = hhi_sum vals := by
    unfold hhi_sum
    rw [hsum, List.map_map]
    congr 1
    apply List.map_congr_left
    intro v _
    have : v * k / (vals.sum * k) = v / vals.sum :=
      mul_div_mul_right v vals.sum (ne_of_gt hk)
    simp [Function.comp, this]
  have h1 : ¬((vals.map (fun v => v * k)).sum = 0 ∧ vals.map (fun v => v * k) ≠ []) :=
    fun h => hsk (hsum ▸ h.1)
  have h2 : ¬(vals.sum = 0 ∧ vals ≠ []) := fun h => hs h.1
  rw [calculate_export_diversification, calculate_export_diversification,
    if_neg h1, if_neg h2, hhi_eq]

/-- Witness for C2 on the concrete values [1, 3] scaled by k = 2. -/
theorem hhi_scale_invariant_check :
    (∀ v ∈ [(1 : ℚ), 3], 0 ≤ v) ∧ (0 < ([(1 : ℚ), 3]).sum) ∧ ((0 : ℚ) < 2) ∧
    calculate_export_diversification ([(1 : ℚ), 3].map (fun v => v * 2)) =
      calculate_export_diversification [(1 : ℚ), 3] :=
  ⟨by norm_num, by norm_num [List.sum_cons, List.sum_nil], by norm_num,
    hhi_scale_invariant [1, 3] 2 (by norm_num)
      (by norm_num [List.sum_cons, List.sum_nil]) (by norm_num)⟩

/-- C10: calculate_export_diversification divides by the total with no zero
guard: on a nonempty sector mapping whose values are all 0, the
division-by-zero error branch is reached (no HHI is returned), while any
input with nonzero total yields an HHI. -/
theorem hhi_division_by_zero (vals : List ℚ) :
    (vals ≠ [] → (∀ v ∈ vals, v = 0) → calculate_export_diversification vals = none) ∧
    (vals.sum ≠ 0 → calculate_export_diversification vals = some (hhi_sum vals)) := by
  constructor
  · intro hne hzero
    rw [calculate_export_diversification, if_pos ⟨List.sum_eq_zero hzero, hne⟩]
  · intro hs
    rw [calculate_export_diversification, if_neg (fun h => hs h.1)]

/-- Witness for C10: the all-zero input [0, 0] fails, the input [1, 2]
returns its HHI. -/
theorem hhi_division_by_zero_check :
    (([(0 : ℚ), 0] : List ℚ) ≠ [] ∧ (∀ v ∈ [(0 : ℚ), 0], v = 0) ∧
      calculate_export_diversification [(0 : ℚ), 0] = none) ∧
    (([(1 : ℚ), 2]).sum ≠ 0 ∧
      calculate_export_diversification [(1 : ℚ), 2] = some (hhi_sum [1, 2])) :=
  ⟨⟨by simp, by simp, (hhi_division_by_zero [0, 0]).1 (by simp) (by simp)⟩,
    ⟨by norm_num [List.sum_cons, List.sum_nil],
      (hhi_division_by_zero [1, 2]).2 (by norm_num [List.sum_cons, List.sum_nil])⟩⟩

/-! ## Value chain upgrading (models/structural_transformation.py, lines 263-312)

simulate_value_chain_upgrading updates each sector's value_chain_position by
a product of an upgrade sum (base 0.01, capability * 0.02, complexity * 0.01,
and a uniform draw from [-0.005, 0.015]) and a diminishing factor
1 - position * 0.7, then takes min with 0.95.  The random draw is the
explicit argument rnd. -/

/-- One sector's value_chain_position after one simulate_value_chain_upgrading
step, as a function of the model's capability index, the sector's complexity
and previous position, and the drawn random component. -/
def vcp_step (capability complexity position rnd : ℚ) : ℚ :=
  min (95/100)
    (position + (1/100 + capability * (2/100) + complexity * (1/100) + rnd) *
      (1 - position * (7/10)))

/-- C4: one step of simulate_value_chain_upgrading never decreases a sector's
value_chain_position, for positions in [0, 0.95], nonnegative complexity and
capability, and every admissible random component in [-0.005, 0.015]. -/
theorem vcp_step_monotone (capability complexity position rnd : ℚ)
    (hcap : 0 ≤ capability) (hcx : 0 ≤ complexity)
    (hp0 : 0 ≤ position) (hp1 : position ≤ 95/100)
    (hr0 : -(5/1000) ≤ rnd) (hr1 : rnd ≤ 15/1000) :
    position ≤ vcp_step capability complexity position rnd := by
  have hu : 0 ≤ 1/100 + capability * (2/100) + complexity * (1/100) + rnd := by nlinarith
  have hd : 0 ≤ 1 - position * (7/10) := by nlinarith
  have hprod : 0 ≤ (1/100 + capability * (2/100) + complexity * (1/100) + rnd) *
      (1 - position * (7/10)) := mul_nonneg hu hd
  exact le_min hp1 (by linarith)

/-- Witness for C4 at concrete state values. -/
theorem vcp_step_monotone_check :
    (0 : ℚ) ≤ 35/100 ∧ (0 : ℚ) ≤ 3/10 ∧ (0 : ℚ) ≤ 1/4 ∧ (1/4 : ℚ) ≤ 95/100 ∧
    (-(5/1000) : ℚ) ≤ 0 ∧ (0 : ℚ) ≤ 15/1000 ∧
    (1/4 : ℚ) ≤ vcp_step (35/100) (3/10) (1/4) 0 :=
  ⟨by norm_num, by norm_num, by norm_num, by norm_num, by norm_num, by norm_num,
    vcp_step_monotone (35/100) (3/10) (1/4) 0 (by norm_num) (by norm_num)
      (by norm_num) (by norm_num) (by norm_num) (by norm_num)⟩

/-! ## Exchange rate model (models/exchange_rate.py, lines 48-181)

simulate_exchange_rate is embedded over the rationals with the Gaussian
market volatility draw of line 120 made an explicit argument.  Python raises
ZeroDivisionError on line 111 (overall_balance / imports) whenever imports is
0, so the embedding returns Option, none in that case. -/

/-- The configuration and mutable state of ExchangeRateModel that one
simulate_exchange_rate call reads. -/
structure ExchangeRateState where
  annual_depreciation : ℚ
  intervention_threshold : ℚ
  intervention_strength : ℚ
  current_rate : ℚ
  real_effective_rate : ℚ
  foreign_reserves : ℚ
deriving DecidableEq

/-- The balance_of_payments argument of simulate_exchange_rate. -/
structure BalanceOfPayments where
  exports : ℚ
  imports : ℚ
  remittances : ℚ
  fdi : ℚ
  aid_loans : ℚ
  profit_repatriation : ℚ
  other_outflows : ℚ
deriving DecidableEq

/-- The global_conditions argument of simulate_exchange_rate. -/
structure GlobalConditions where
  dollar_index : ℚ
  global_risk_appetite : ℚ
  regional_currency_trends : ℚ
  oil_price_change : ℚ
deriving DecidableEq

/-- Lines 95-98: overall balance = current account + capital account. -/
def overall_balance (b : BalanceOfPayments) : ℚ :=
  ((b.exports - b.imports) + b.remittances - b.profit_repatriation) +
    (b.fdi + b.aid_loans - b.other_outflows)

/-- Line 102: reserves after adding the overall balance, before any
intervention cost. -/
def reserves_after_bop (st : ExchangeRateState) (b : BalanceOfPayments) : ℚ :=
  st.foreign_reserves + overall_balance b

/-- Lines 105-106: months of imports covered by reserves, defaulting to 12
when monthly imports are not positive. -/
def reserve_months (st : ExchangeRateState) (b : BalanceOfPayments) : ℚ :=
  if 0 < b.imports / 12 then reserves_after_bop st b / (b.imports / 12) else 12

/-- Line 107: reserve pressure, clamped to [0, 1] below 6 months of cover. -/
def reserve_pressure (st : ExchangeRateState) (b : BalanceOfPayments) : ℚ :=
  if reserve_months st b < 6 then clamp 0 1 ((3 - reserve_months st b) / 3) else 0

/-- Lines 110-117: the base exchange rate pressure. -/
def base_pressure (st : ExchangeRateState) (b : BalanceOfPayments)
    (g : GlobalConditions) : ℚ :=
  -(3/10) * (overall_balance b / b.imports) + (2/10) * g.dollar_index +
  -(1/10) * g.global_risk_appetite + (15/100) * g.regional_currency_trends +
  (25/100) * g.oil_price_change + (2/10) * reserve_pressure st b

/-- Lines 120-124: potential depreciation = annual_depreciation +
(base pressure + market volatility draw) * 0.1. -/
def potential_depreciation (st : ExchangeRateState) (b : BalanceOfPayments)
    (g : GlobalConditions) (draw : ℚ) : ℚ :=
  st.annual_depreciation + (base_pressure st b g + draw) * (1/10)

/-- The fields of the result dict of simulate_exchange_rate relevant to the
intervention logic. -/
structure ExchangeRateResult where
  exchange_rate : ℚ
  depreciation_rate : ℚ
  potential_depreciation : ℚ
  foreign_reserves : ℚ
  intervention_cost : ℚ
deriving DecidableEq

/-- ExchangeRateModel.simulate_exchange_rate (lines 48-181): returns the
result record and the updated model state, or none on the imports = 0
division error.  The intervention branch (lines 130-141) fires only when
both the absolute potential depreciation exceeds the threshold and the
intervention stance exceeds 0.3. -/
def simulate_exchange_rate (st : ExchangeRateState) (b : BalanceOfPayments)
    (intervention_stance : ℚ) (g : GlobalConditions) (draw : ℚ) :
    Option (ExchangeRateResult × ExchangeRateState) :=
  if b.imports = 0 then none
  else
    let pd := potential_depreciation st b g draw
    let reserves1 := reserves_after_bop st b
    let ac :=
      if |pd| > st.intervention_threshold ∧ intervention_stance > 3/10 then
        let eff := min (st.intervention_strength * intervention_stance) (8/10)
        let act := pd * (1 - eff)
        (act, |pd - act| * b.imports * (1/2))
      else (pd, 0)
    let reserves2 := reserves1 - ac.2
    let new_rate := st.current_rate * (1 + ac.1)
    let new_reer := st.real_effective_rate * (1 + ac.1 - 2/100)
    some
      ({ exchange_rate := new_rate
         depreciation_rate := ac.1
         potential_depreciation := pd
         foreign_reserves := reserves2
         intervention_cost := ac.2 },
       { st with
         current_rate := new_rate
         real_effective_rate := new_reer
         foreign_reserves := reserves2 })

/-- C3: whenever the computed potential depreciation stays within the
intervention threshold in absolute value, the central bank does not
intervene, for every intervention stance: the actual depreciation equals the
potential depreciation, the intervention cost is 0, and the foreign reserves
are exactly the post-balance-of-payments reserves, not reduced by any
intervention cost. -/
theorem no_intervention_below_threshold (st : ExchangeRateState)
    (b : BalanceOfPayments) (stance : ℚ) (g : GlobalConditions) (draw : ℚ)
    (him : b.imports ≠ 0)
    (hpd : |potential_depreciation st b g draw| ≤ st.intervention_threshold) :
    (simulate_exchange_rate st b stance g draw).map
        (fun p => (p.1.depreciation_rate, p.1.intervention_cost,
          p.1.foreign_reserves, p.2.foreign_reserves)) =
      some (potential_depreciation st b g draw, 0,
        reserves_after_bop st b, reserves_after_bop st b) := by
  have hcond : ¬(|potential_depreciation st b g draw| > st.intervention_threshold ∧
      stance > 3/10) := fun h => absurd hpd (not_le.mpr h.1)
  rw [simulate_exchange_rate, if_neg him]
  simp only [if_neg hcond, Option.map_some']
  norm_num

/-- Witness for C3 at a concrete state with balanced payments, neutral global
conditions and zero volatility draw, where the potential depreciation is 0. -/
theorem no_intervention_below_threshold_check :
    ((⟨60000, 60000, 0, 0, 0, 0, 0⟩ : BalanceOfPayments).imports ≠ 0) ∧
    (|potential_depreciation ⟨0, 8/100, 6/10, 110, 1, 35000⟩
        ⟨60000, 60000, 0, 0, 0, 0, 0⟩ ⟨0, 0, 0, 0⟩ 0| ≤
      (⟨0, 8/100, 6/10, 110, 1, 35000⟩ : ExchangeRateState).intervention_threshold) ∧
    (simulate_exchange_rate ⟨0, 8/100, 6/10, 110, 1, 35000⟩
        ⟨60000, 60000, 0, 0, 0, 0, 0⟩ (1/2) ⟨0, 0, 0, 0⟩ 0).map
        (fun p => (p.1.depreciation_rate, p.1.intervention_cost,
          p.1.foreign_reserves, p.2.foreign_reserves)) =
      some (potential_depreciation ⟨0, 8/100, 6/10, 110, 1, 35000⟩
          ⟨60000, 60000, 0, 0, 0, 0, 0⟩ ⟨0, 0, 0, 0⟩ 0, 0,
        reserves_after_bop ⟨0, 8/100, 6/10, 110, 1, 35000⟩
          ⟨60000, 60000, 0, 0, 0, 0, 0⟩,
        reserves_after_bop ⟨0, 8/100, 6/10, 110, 1, 35000⟩
          ⟨60000, 60000, 0, 0, 0, 0, 0⟩) :=
  ⟨by norm_num,
    by norm_num [potential_depreciation, base_pressure, reserve_pressure,
      reserve_months, reserves_after_bop, overall_balance, clamp, min_def, max_def],
    no_intervention_below_threshold ⟨0, 8/100, 6/10, 110, 1, 35000⟩
      ⟨60000, 60000, 0, 0, 0, 0, 0⟩ (1/2) ⟨0, 0, 0, 0⟩ 0 (by norm_num)
      (by norm_num [potential_depreciation, base_pressure, reserve_pressure,
        reserve_months, reserves_after_bop, overall_balance, clamp, min_def, max_def])⟩

/-! ## Simulation engine (simulation/simulation_engine.py)

TradeSimulationEngine.simulate_year is a fixed sequence of model invocations,
each wrapped in its own try/except Exception block: on failure the engine
prints the error and stores the marker dict with key error and the exception
message under that model's (or sector's/category's) key, then continues with
the next call.  We embed one guarded call as an element of a list of pairs of
a key and a function from the results accumulated so far to Except String V
(ok result or raised exception message); V abstracts the per-model result
dictionaries.  run_simulation loops over the calendar years, threading the
mutable model state, and appends each year's results to the yearly_data
mapping. -/

/-- An entry of a year's results: a model result or the error marker dict
substituted by the except branch. -/
inductive ModelEntry (V : Type) where
  | ok (v : V)
  | errorMarker (msg : String)
deriving DecidableEq

/-- One year's accumulated results: an insertion-ordered mapping from model
key to entry, as built by the engine's year_results dict. -/
abbrev YearResults (V : Type) := List (String × ModelEntry V)

/-- One guarded model invocation: run the call on the results accumulated so
far; store its result, or the error marker on an exception. -/
def guarded_call {V : Type} (acc : YearResults V) (key : String)
    (f : YearResults V → Except String V) : YearResults V :=
  acc ++ [(key,
    match f acc with
    | Except.ok v => ModelEntry.ok v
    | Except.error e => ModelEntry.errorMarker e)]

/-- The engine's simulate_year body: execute the given guarded calls in
order, each seeing the results accumulated by the earlier ones. -/
def simulate_year_calls {V : Type}
    (calls : List (String × (YearResults V → Except String V)))
    (acc : YearResults V) : YearResults V :=
  match calls with
  | [] => acc
  | c :: rest => simulate_year_calls rest (guarded_call acc c.1 c.2)

/-- TradeSimulationEngine.simulate_year on a list of guarded model calls. -/
def simulate_year {V : Type}
    (calls : List (String × (YearResults V → Except String V))) : YearResults V :=
  simulate_year_calls calls []

theorem simulate_year_calls_map_fst {V : Type}
    (calls : List (String × (YearResults V → Except String V))) :
    ∀ acc : YearResults V,
      (simulate_year_calls calls acc).map Prod.fst =
        acc.map Prod.fst ++ calls.map Prod.fst := by
  induction calls with
  | nil => intro acc; simp [simulate_year_calls]
  | cons c rest ih =>
    intro acc
    rw [simulate_year_calls, ih]
    simp [guarded_call]

theorem simulate_year_calls_append {V : Type}
    (l1 l2 : List (String × (YearResults V → Except String V))) :
    ∀ acc : YearResults V,
      simulate_year_calls (l1 ++ l2) acc =
        simulate_year_calls l2 (simulate_year_calls l1 acc) := by
  induction l1 with
  | nil => intro acc; rfl
  | cons c rest ih =>
    intro acc
    rw [List.cons_append, simulate_year_calls, simulate_year_calls, ih]

theorem simulate_year_calls_acc_le {V : Type}
    (calls : List (String × (YearResults V → Except String V))) :
    ∀ acc : YearResults V, acc <+: simulate_year_calls calls acc := by
  induction calls with
  | nil => intro acc; exact List.prefix_refl acc
  | cons c rest ih =>
    intro acc
    calc acc <+: guarded_call acc c.1 c.2 := ⟨_, rfl⟩
      _ <+: simulate_year_calls rest (guarded_call acc c.1 c.2) := ih _
      _ = simulate_year_calls (c :: rest) acc := rfl

/-- The calendar years simulated by run_simulation: start_year to end_year
inclusive, in order (range(start_year, end_year + 1)). -/
def year_range (start_year end_year : Int) : List Int :=
  (List.range (end_year + 1 - start_year).toNat).map (fun i : Nat => start_year + (i : Int))

/-- The loop body of run_simulation: simulate each year in order, threading
the mutable model state s, and append the year's results to yearly_data.
Records are carried here as opaque values of type R; the aliasing by which a
stored record can share mutable inner dicts with the model state (and so be
changed retroactively) is modelled explicitly by the trade-war heap
embedding further below. -/
def run_years_aux {S R : Type} (step : S → Int → R × S) :
    List Int → S → List (Int × R) → List (Int × R) × S
  | [], s, acc => (acc, s)
  | y :: ys, s, acc => run_years_aux step ys (step s y).2 (acc ++ [(y, (step s y).1)])

/-- TradeSimulationEngine.run_simulation: the yearly_data mapping after
simulating every year from start_year to end_year inclusive, starting from
the engine state s0 (the seeded models). -/
def run_simulation {S R : Type} (step : S → Int → R × S)
    (start_year end_year : Int) (s0 : S) : List (Int × R) :=
  (run_years_aux step (year_range start_year end_year) s0 []).1

theorem run_years_aux_map_fst {S R : Type} (step : S → Int → R × S) (ys : List Int) :
    ∀ (s : S) (acc : List (Int × R)),
      ((run_years_aux step ys s acc).1).map Prod.fst = acc.map Prod.fst ++ ys := by
  induction ys with
  | nil => intro s acc; simp [run_years_aux]
  | cons y t ih =>
    intro s acc
    rw [run_years_aux, ih]
    simp

/-- C5: every per-model call of simulate_year is individually guarded.  If
the call under some key raises (returns Except.error e on the results
accumulated so far), that year's results contain the error marker under that
key, every call of the year still contributes its entry in order, and
run_simulation still produces an entry for every year of the range: no
exception propagates out of the run. -/
theorem simulate_year_guards_each_call {V S : Type}
    (pre post : List (String × (YearResults V → Except String V)))
    (key : String) (f : YearResults V → Except String V) (e : String)
    (herr : f (simulate_year pre) = Except.error e) :
    ((key, ModelEntry.errorMarker e) ∈ simulate_year (pre ++ (key, f) :: post)) ∧
    (simulate_year (pre ++ (key, f) :: post)).map Prod.fst =
      (pre ++ (key, f) :: post).map Prod.fst ∧
    ∀ (step : S → Int → YearResults V × S) (start_year end_year : Int) (s0 : S),
      (run_simulation step start_year end_year s0).map Prod.fst =
        year_range start_year end_year := by
  refine ⟨?_, ?_, ?_⟩
  · have hsplit : simulate_year (pre ++ (key, f) :: post) =
        simulate_year_calls post (guarded_call (simulate_year pre) key f) := by
      rw [simulate_year, simulate_year_calls_append]
      rfl
    have hmem : (key, ModelEntry.errorMarker e) ∈ guarded_call (simulate_year pre) key f := by
      rw [guarded_call, herr]
      exact List.mem_append_right _ (List.mem_singleton.mpr rfl)
    rw [hsplit]
    exact (simulate_year_calls_acc_le post _).subset hmem
  · rw [simulate_year, simulate_year_calls_map_fst]
    rfl
  · intro step start_year end_year s0
    rw [run_simulation, run_years_aux_map_fst]
    rfl

/-- Witness for C5: a concrete year in which the geopolitical call raises
while its neighbours succeed. -/
theorem simulate_year_guards_each_call_check :
    ((fun _ : YearResults Nat => (Except.error "boom" : Except String Nat))
        (simulate_year [("global_market", fun _ => Except.ok 1)]) =
      Except.error "boom") ∧
    (("geopolitical", ModelEntry.errorMarker "boom") ∈
        simulate_year ([("global_market", fun _ => Except.ok 1)] ++
          ("geopolitical", fun _ => Except.error "boom") ::
            [("investment", fun _ => Except.ok 2)]) ∧
      (simulate_year ([("global_market", fun _ => Except.ok 1)] ++
          ("geopolitical", fun _ => Except.error "boom") ::
            [("investment", fun _ => Except.ok 2)])).map Prod.fst =
        ([("global_market", fun _ : YearResults Nat => (Except.ok 1 : Except String Nat))] ++
          ("geopolitical", fun _ => Except.error "boom") ::
            [("investment", fun _ => Except.ok 2)]).map Prod.fst ∧
      ∀ (step : Unit → Int → YearResults Nat × Unit) (start_year end_year : Int) (s0 : Unit),
        (run_simulation step start_year end_year s0).map Prod.fst =
          year_range start_year end_year) :=
  ⟨rfl,
    simulate_year_guards_each_call [("global_market", fun _ => Except.ok 1)]
      [("investment", fun _ => Except.ok 2)] "geopolitical"
      (fun _ => Except.error "boom") "boom" rfl⟩

/-! ## Trade-war aliasing in stored records (models/geopolitical.py, lines 518-659)

TradeWarImpactsModel.simulate_trade_wars puts a SHALLOW copy of
self.active_trade_wars into its result (line 643): the dict is copied but
the per-conflict inner dicts are shared.  That result reaches yearly_data
via trade_war_impacts in the geopolitical result (geopolitical.py line 107,
simulation_engine.py lines 229-230).  The following year's call mutates the
shared inner dicts in place (line 589), so the record already stored for the
earlier year changes.  Python dict values are references, so the inner dicts
are modelled as cells of a heap addressed by allocation index; a shallow
dict copy copies the references only. -/

/-- A per-conflict inner trade-war dict (geopolitical.py lines 569-573). -/
structure TradeWar where
  started_year : Int
  intensity : ℚ
  duration_years : Int
deriving DecidableEq

/-- The heap of inner trade-war dicts, addressed by allocation index. -/
abbrev WarHeap := List TradeWar

/-- The TradeWarImpactsModel state touched by simulate_trade_wars: the heap
of inner dicts and self.active_trade_wars as a mapping from conflict id to
heap reference. -/
structure TradeWarsState where
  heap : WarHeap
  active_trade_wars : List (String × Nat)
deriving DecidableEq

/-- Lines 544-549: the fixed potential conflicts with their base intensity. -/
def potential_conflicts : List (String × String × ℚ) :=
  [("us", "china", 7/10), ("us", "eu", 1/2),
   ("china", "india", 6/10), ("china", "vietnam", 4/10)]

/-- Line 552: conflict_id built from the two country names. -/
def conflict_id (a b : String) : String := a ++ "_" ++ b

/-- The random draws consumed by one simulate_trade_wars call, per conflict
id: the start test of line 565, the intensity variation factor of line 567
(0.8 + 0.4 * random), the duration draw of line 572, and the Gaussian
intensity change of line 588. -/
structure TradeWarDraws where
  war_starts : String → Bool
  intensity_factor : String → ℚ
  duration : String → Int
  intensity_change : String → ℚ

/-- Lines 551-575: start new trade wars.  A new war allocates a fresh inner
dict on the heap and registers the reference in active_trade_wars; a
conflict already active (in either direction) is skipped. -/
def start_new_wars (st : TradeWarsState) (sim_year : Int) (d : TradeWarDraws) :
    TradeWarsState :=
  potential_conflicts.foldl
    (fun acc c =>
      let cid := conflict_id c.1 c.2.1
      let rid := conflict_id c.2.1 c.1
      if (acc.active_trade_wars.lookup cid).isSome ∨
          (acc.active_trade_wars.lookup rid).isSome then acc
      else if d.war_starts cid then
        { heap := acc.heap ++
            [{ started_year := sim_year
               intensity := c.2.2 * d.intensity_factor cid
               duration_years := d.duration cid }]
          active_trade_wars := acc.active_trade_wars ++ [(cid, acc.heap.length)] }
      else acc)
    st

/-- Lines 578-593: per active war, end it (remove the mapping entry) when
years_active reaches its duration, otherwise mutate the shared inner dict's
intensity in place (line 589), clamped to [0.1, 0.9]. -/
def update_wars (st : TradeWarsState) (sim_year : Int) (d : TradeWarDraws) :
    TradeWarsState :=
  st.active_trade_wars.foldl
    (fun acc p =>
      match acc.heap.get? p.2 with
      | none => acc
      | some w =>
        if w.duration_years ≤ sim_year - w.started_year then
          { acc with
            active_trade_wars := acc.active_trade_wars.filter (fun q => q.1 ≠ p.1) }
        else
          { acc with
            heap := acc.heap.set p.2
              { w with
                intensity := clamp (1/10) (9/10) (w.intensity + d.intensity_change p.1) } })
    st

/-- The state effect of one simulate_trade_wars call: the start loop of
lines 551-575 followed by the update loop of lines 578-593. -/
def simulate_trade_wars_state (st : TradeWarsState) (sim_year : Int)
    (d : TradeWarDraws) : TradeWarsState :=
  update_wars (start_new_wars st sim_year d) sim_year d

/-- Line 643: the active_trade_wars field of the year's stored result is a
shallow copy of self.active_trade_wars: the same references to the same
inner dicts. -/
def stored_active_trade_wars (st : TradeWarsState) : List (String × Nat) :=
  st.active_trade_wars

/-- The concrete contents of a stored active_trade_wars record when it is
observed (e.g. serialized by save_results): each shared reference is read
through the heap as it is at observation time. -/
def read_record (h : WarHeap) (refs : List (String × Nat)) :
    List (String × Option TradeWar) :=
  refs.map (fun p => (p.1, h.get? p.2))

/-- The 2025 draws of the failing input: the us_china war starts with
intensity factor 1 (so intensity 0.7) and duration 3; no other war starts;
the same-year intensity change draw is 0. -/
def war_start_draws : TradeWarDraws :=
  { war_starts := fun c => c == "us_china"
    intensity_factor := fun _ => 1
    duration := fun _ => 3
    intensity_change := fun _ => 0 }

/-- The 2026 draws of the failing input: no new war starts and the us_china
intensity change draw is +0.1. -/
def war_update_draws : TradeWarDraws :=
  { war_starts := fun _ => false
    intensity_factor := fun _ => 1
    duration := fun _ => 3
    intensity_change := fun _ => 1/10 }

/-- The trade-wars state after simulating year 2025 of the failing input
from the initial empty state (line 498: active_trade_wars starts empty). -/
def war_state_2025 : TradeWarsState :=
  simulate_trade_wars_state ⟨[], []⟩ 2025 war_start_draws

/-- The trade-wars state after simulating year 2026 of the failing input. -/
def war_state_2026 : TradeWarsState :=
  simulate_trade_wars_state war_state_2025 2026 war_update_draws

/-- C7: the claim's final conjunct fails on the code.  At the failing input
(a us_china trade war starting in 2025 with intensity 0.7 and duration 3,
still active in 2026 with intensity draw +0.1), the record stored for 2025
holds a shallow copy of active_trade_wars whose inner dict is shared with
the model state; simulating 2026 mutates that inner dict in place, so the
2025 record reads intensity 0.7 when it is written but intensity 0.8 after
year 2026 runs: a record stored for an earlier year IS modified by the
simulation of a later year. -/
theorem stored_record_mutated_by_next_year :
    read_record war_state_2025.heap (stored_active_trade_wars war_state_2025) =
      [("us_china", some ⟨2025, 7/10, 3⟩)] ∧
    read_record war_state_2026.heap (stored_active_trade_wars war_state_2025) =
      [("us_china", some ⟨2025, 8/10, 3⟩)] ∧
    read_record war_state_2026.heap (stored_active_trade_wars war_state_2025) ≠
      read_record war_state_2025.heap (stored_active_trade_wars war_state_2025) := by
  have hstart : start_new_wars ⟨[], []⟩ 2025 war_start_draws =
      ⟨[⟨2025, 7/10 * 1, 3⟩], [("us_china", 0)]⟩ := rfl
  have hupd : update_wars ⟨[⟨2025, 7/10 * 1, 3⟩], [("us_china", 0)]⟩ 2025 war_start_draws =
      ⟨[⟨2025, clamp (1/10) (9/10) (7/10 * 1 + 0), 3⟩], [("us_china", 0)]⟩ := rfl
  have hint : clamp (1/10) (9/10) (7/10 * 1 + 0) = (7/10 : ℚ) := by
    rw [clamp]; norm_num
  have h25 : war_state_2025 = ⟨[⟨2025, 7/10, 3⟩], [("us_china", 0)]⟩ := by
    rw [war_state_2025, simulate_trade_wars_state, hstart, hupd, hint]
  have hstart2 : start_new_wars ⟨[⟨2025, 7/10, 3⟩], [("us_china", 0)]⟩ 2026 war_update_draws =
      ⟨[⟨2025, 7/10, 3⟩], [("us_china", 0)]⟩ := rfl
  have hupd2 : update_wars ⟨[⟨2025, 7/10, 3⟩], [("us_china", 0)]⟩ 2026 war_update_draws =
      ⟨[⟨2025, clamp (1/10) (9/10) (7/10 + 1/10), 3⟩], [("us_china", 0)]⟩ := rfl
  have hint2 : clamp (1/10) (9/10) (7/10 + 1/10) = (8/10 : ℚ) := by
    rw [clamp]; norm_num
  have h26 : war_state_2026 = ⟨[⟨2025, 8/10, 3⟩], [("us_china", 0)]⟩ := by
    rw [war_state_2026, simulate_trade_wars_state, h25, hstart2, hupd2, hint2]
  have hread25 : read_record war_state_2025.heap (stored_active_trade_wars war_state_2025) =
      [("us_china", some ⟨2025, 7/10, 3⟩)] := by
    rw [h25]; rfl
  have hread26 : read_record war_state_2026.heap (stored_active_trade_wars war_state_2025) =
      [("us_china", some ⟨2025, 8/10, 3⟩)] := by
    rw [h26, stored_active_trade_wars, h25]
    rfl
  refine ⟨hread25, hread26, ?_⟩
  rw [hread25, hread26]
  simp only [ne_eq, List.cons.injEq, Prod.mk.injEq, Option.some.injEq, TradeWar.mk.injEq]
  intro h
  have : (8/10 : ℚ) = 7/10 := h.1.2.2.1
  norm_num at this

/-! ## Saved results and determinism (simulation_engine.py, lines 52-76 and 451-469)

The engine's results dict is created in the constructor with a metadata block
holding the scenario, the year range and datetime.now() formatted as a
string; save_results dumps this dict to JSON verbatim.  The wall-clock
timestamp is an explicit argument of the embedding; the seeded model and RNG
state is the s0 argument of run_simulation (random.seed and np.random.seed
make every later draw a deterministic function of the configured seed). -/

/-- The metadata block of the results dict (lines 69-74). -/
structure SimMetadata where
  scenario : String
  start_year : Int
  end_year : Int
  timestamp : String
deriving DecidableEq

/-- The full saved results: metadata plus the yearly_data mapping, exactly
the structure json.dump serializes in save_results. -/
structure SavedResults (R : Type) where
  metadata : SimMetadata
  yearly_data : List (Int × R)

/-- The results dict saved by save_results after a full run started at
wall-clock time ts from seeded engine state s0. -/
def save_results {S R : Type} (step : S → Int → R × S) (s0 : S)
    (scenario ts : String) (start_year end_year : Int) : SavedResults R :=
  { metadata :=
      { scenario := scenario
        start_year := start_year
        end_year := end_year
        timestamp := ts }
    yearly_data := run_simulation step start_year end_year s0 }

/-- C6 counterexample: two runs of the engine with the same seeded state,
scenario baseline and years 2025-2027, started five seconds apart, save
different JSON (the metadata timestamp differs), refuting byte-identical
output. -/
theorem saved_results_differ_by_timestamp :
    save_results (fun u y => ((y : ℚ), u)) () "baseline" "2025-04-01 10:00:00" 2025 2027 ≠
      save_results (fun u y => ((y : ℚ), u)) () "baseline" "2025-04-01 10:00:05" 2025 2027 := by
  intro h
  have ht := congrArg (fun r => r.metadata.timestamp) h
  simp only [save_results] at ht
  exact absurd ht (by decide)

/-- C6 (amended): two runs with the same seeded engine state agree on the
scenario, the year range and the entire yearly_data, and differ at most in
the metadata timestamp; when the two timestamps coincide, the saved outputs
are fully identical. -/
theorem saved_results_deterministic_up_to_timestamp {S R : Type}
    (step : S → Int → R × S) (s0 : S) (scenario ts1 ts2 : String)
    (start_year end_year : Int) :
    (save_results step s0 scenario ts1 start_year end_year).yearly_data =
      (save_results step s0 scenario ts2 start_year end_year).yearly_data ∧
    (save_results step s0 scenario ts1 start_year end_year).metadata.scenario =
      (save_results step s0 scenario ts2 start_year end_year).metadata.scenario ∧
    (save_results step s0 scenario ts1 start_year end_year).metadata.start_year =
      (save_results step s0 scenario ts2 start_year end_year).metadata.start_year ∧
    (save_results step s0 scenario ts1 start_year end_year).metadata.end_year =
      (save_results step s0 scenario ts2 start_year end_year).metadata.end_year ∧
    (ts1 = ts2 →
      save_results step s0 scenario ts1 start_year end_year =
        save_results step s0 scenario ts2 start_year end_year) := by
  refine ⟨rfl, rfl, rfl, rfl, fun h => by rw [h]⟩

/-- Witness for the amended C6 with equal timestamps. -/
theorem saved_results_deterministic_up_to_timestamp_check :
    (save_results (fun u y => ((y : ℚ), u)) () "baseline" "t" 2025 2027).yearly_data =
      (save_results (fun u y => ((y : ℚ), u)) () "baseline" "t" 2025 2027).yearly_data ∧
    (save_results (fun u y => ((y : ℚ), u)) () "baseline" "t" 2025 2027).metadata.scenario =
      (save_results (fun u y => ((y : ℚ), u)) () "baseline" "t" 2025 2027).metadata.scenario ∧
    (save_results (fun u y => ((y : ℚ), u)) () "baseline" "t" 2025 2027).metadata.start_year =
      (save_results (fun u y => ((y : ℚ), u)) () "baseline" "t" 2025 2027).metadata.start_year ∧
    (save_results (fun u y => ((y : ℚ), u)) () "baseline" "t" 2025 2027).metadata.end_year =
      (save_results (fun u y => ((y : ℚ), u)) () "baseline" "t" 2025 2027).metadata.end_year ∧
    ("t" = "t" →
      save_results (fun u y => ((y : ℚ), u)) () "baseline" "t" 2025 2027 =
        save_results (fun u y => ((y : ℚ), u)) () "baseline" "t" 2025 2027) :=
  saved_results_deterministic_up_to_timestamp (fun u y => ((y : ℚ), u)) ()
    "baseline" "t" "t" 2025 2027

end TradeSim
